import Mathlib

/-!
Shallow embedding of `docs/examples/python-client.py` (class `AccountingApiClient`)
from the Derezo/accounting-api repository.

Modelling conventions:
- Python JSON values are the inductive `Json`; decoded response bodies and
  request bodies are `Json` values.  Object fields are an association list
  in insertion order; lookup is first-match.
- Python exceptions are the `PyError` type, and each client method is a pure
  function from the client state and the HTTP response the transport returns
  to a `CallResult`: the list of HTTP requests issued (in order), the client
  state after the call, and the outcome (`Except PyError Json`).
- `requests.Response.raise_for_status` raises `requests.exceptions.HTTPError`
  exactly when `400 <= status_code < 600` (documented behaviour of the
  requests library); it is embedded accordingly.
- `response.json()` either yields the decoded body (`Response.body = some j`)
  or raises a JSON decode error (`Response.body = none`).
- Python truthiness (`if self.access_token:`) is embedded by `Json.truthy`
  and `optTruthy`: `None` and the empty string are falsy.
- The `requests.Session` default headers (Content-Type / Accept) are applied
  to every request; `Request.headers` holds the per-call extra headers and
  `sentHeaders` the full header list on the wire.
-/

/-- A decoded JSON value, as produced by `response.json()`. -/
inductive Json where
  | null : Json
  | bool : Bool → Json
  | num : Int → Json
  | str : String → Json
  | arr : List Json → Json
  | obj : List (String × Json) → Json


/-- Python truthiness of a JSON-decoded value: `None`, `False`, `0`, `""`,
`[]` and the empty dict are falsy; everything else is truthy. -/
def Json.truthy : Json → Bool
  | .null => false
  | .bool b => b
  | .num n => decide (n ≠ 0)
  | .str s => decide (s ≠ "")
  | .arr l => ! l.isEmpty
  | .obj l => ! l.isEmpty

mutual
/-- Python `repr` of a JSON-decoded value (string escaping is not modelled:
strings are assumed free of quotes and backslashes). -/
def pyRepr : Json → String
  | .null => "None"
  | .bool true => "True"
  | .bool false => "False"
  | .num n => toString n
  | .str s => "\x27" ++ s ++ "\x27"
  | .arr l => "[" ++ String.intercalate ", " (pyReprList l) ++ "]"
  | .obj l => "\x7b" ++ String.intercalate ", " (pyReprObj l) ++ "\x7d"

/-- `repr` of each element of a decoded JSON array. -/
def pyReprList : List Json → List String
  | [] => []
  | j :: rest => pyRepr j :: pyReprList rest

/-- `repr` of each field of a decoded JSON dict. -/
def pyReprObj : List (String × Json) → List String
  | [] => []
  | (k, v) :: rest => ("\x27" ++ k ++ "\x27: " ++ pyRepr v) :: pyReprObj rest
end

/-- Python `str` of a JSON-decoded value, as used by f-string interpolation:
identical to `repr` except on strings, which format as themselves. -/
def pyFormat : Json → String
  | .str s => s
  | j => pyRepr j

/-- Exceptions the client code can raise. -/
inductive PyError where
  /-- A bare `Exception(message)`. -/
  | exception : String → PyError
  /-- `requests.exceptions.HTTPError` raised by `raise_for_status`,
  carrying the response status code and body. -/
  | httpError : Nat → Option Json → PyError
  /-- `KeyError` from a dict lookup `result[key]` on a missing key. -/
  | keyError : String → PyError
  /-- `TypeError` from subscripting a non-dict value with a string key. -/
  | typeError : PyError
  /-- `json.JSONDecodeError` from `response.json()` on a non-JSON body. -/
  | jsonDecodeError : PyError


/-- First-match lookup of a key in a decoded JSON dict. -/
def lookupField : List (String × Json) → String → Option Json
  | [], _ => none
  | (k, v) :: rest, key => if k = key then some v else lookupField rest key

/-- Python subscripting `result[key]` with a string key: the field value on a
dict that has the key, `KeyError` on a dict that lacks it, `TypeError` on a
non-dict value. -/
def Json.getItem : Json → String → Except PyError Json
  | .obj fields, key =>
    match lookupField fields key with
    | some v => .ok v
    | none => .error (.keyError key)
  | _, _ => .error .typeError

/-- An HTTP response as seen by the client: the status code and the decoded
JSON body (`none` when the body does not decode as JSON). -/
structure Response where
  status_code : Nat
  body : Option Json


/-- `requests.Response.raise_for_status`: raises `HTTPError` exactly for
status codes in `[400, 600)` (4xx client errors and 5xx server errors); any
other status code, including 1xx, 2xx and 3xx, returns normally. -/
def raise_for_status (r : Response) : Except PyError Unit :=
  if 400 ≤ r.status_code ∧ r.status_code < 600 then
    .error (.httpError r.status_code r.body)
  else
    .ok ()

/-- `response.json()`: the decoded body, or a decode error when the body is
not valid JSON. -/
def response_json (r : Response) : Except PyError Json :=
  match r.body with
  | some j => .ok j
  | none => .error .jsonDecodeError

/-- `AccountingApiClient._handle_response`: raise on 401, then
`raise_for_status`, then return the decoded JSON body. -/
def _handle_response (r : Response) : Except PyError Json :=
  if r.status_code = 401 then
    .error (.exception "Authentication failed. Please login again.")
  else do
    let _ ← raise_for_status r
    response_json r

/-- The client session state: `base_url`, `access_token`, `refresh_token`.
Token slots hold whatever JSON value the response supplied (`none` = Python
`None`, the initial value). -/
structure ClientState where
  base_url : String
  access_token : Option Json
  refresh_token : Option Json


/-- Python truthiness of an `Optional` slot: `None` is falsy, otherwise the
truthiness of the held value. -/
def optTruthy : Option Json → Bool
  | none => false
  | some j => j.truthy

/-- The default headers installed on the `requests.Session` at construction
and sent with every request. -/
def session_default_headers : List (String × String) :=
  [("Content-Type", "application/json"), ("Accept", "application/json")]

/-- HTTP method of a request issued by the client. -/
inductive HttpMethod where
  | GET : HttpMethod
  | POST : HttpMethod


/-- An HTTP request issued by the client: method, full URL, per-call extra
headers (beyond the session defaults), optional JSON body, and query
parameters. -/
structure Request where
  method : HttpMethod
  url : String
  headers : List (String × String)
  json_body : Option Json
  params : List (String × Json)


/-- The full header list sent on the wire: session defaults plus the
per-call headers. -/
def sentHeaders (r : Request) : List (String × String) :=
  session_default_headers ++ r.headers

/-- The query string `requests` builds from the `params` mapping
(percent-escaping is not modelled: keys and rendered values are assumed
URL-safe, as in the examples). -/
def queryString (params : List (String × Json)) : String :=
  String.intercalate "&" (params.map fun p => p.1 ++ "=" ++ pyFormat p.2)

/-- `AccountingApiClient._get_headers`: an `Authorization: Bearer <token>`
header when `self.access_token` is truthy, otherwise no extra headers. -/
def _get_headers (st : ClientState) : List (String × String) :=
  match st.access_token with
  | some tok => if tok.truthy then [("Authorization", "Bearer " ++ pyFormat tok)] else []
  | none => []

/-- The observable result of one client method call: the HTTP requests it
issued (in order), the client state after the call, and the returned value
or raised exception. -/
structure CallResult where
  requests : List Request
  state : ClientState
  outcome : Except PyError Json


/-- The shared tail of `login` and `refresh_access_token` (the source
repeats these three statements verbatim in both methods): given the handled
response, assign `self.access_token = result[\x27accessToken\x27]` and then
`self.refresh_token = result[\x27refreshToken\x27]`, in that order, and
return `result`; a raised exception aborts at the point it occurs. -/
def store_tokens (st : ClientState) (req : Request)
    (handled : Except PyError Json) : CallResult :=
  match handled with
  | .error e => ⟨[req], st, .error e⟩
  | .ok result =>
    match result.getItem "accessToken" with
    | .error e => ⟨[req], st, .error e⟩
    | .ok atok =>
      let st1 := { st with access_token := some atok }
      match result.getItem "refreshToken" with
      | .error e => ⟨[req], st1, .error e⟩
      | .ok rtok => ⟨[req], { st1 with refresh_token := some rtok }, .ok result⟩

/-- `AccountingApiClient.login`: POST the credentials to `/auth/login`,
funnel the response through `_handle_response`, then store both tokens and
return the decoded body (`store_tokens`). -/
def login (st : ClientState) (email password organization_id : String)
    (resp : Response) : CallResult :=
  let url := st.base_url ++ "/auth/login"
  let data := Json.obj
    [("email", .str email), ("password", .str password),
     ("organizationId", .str organization_id)]
  store_tokens st ⟨.POST, url, [], some data, []⟩ (_handle_response resp)

/-- `AccountingApiClient.refresh_access_token`: raise
`Exception("No refresh token available")` when `self.refresh_token` is
falsy, before any network request; otherwise POST the refresh token to
`/auth/refresh`, funnel the response through `_handle_response`, then store
both tokens and return the decoded body (`store_tokens`). -/
def refresh_access_token (st : ClientState) (resp : Response) : CallResult :=
  match st.refresh_token with
  | none => ⟨[], st, .error (.exception "No refresh token available")⟩
  | some rt =>
    if rt.truthy then
      let url := st.base_url ++ "/auth/refresh"
      let data := Json.obj [("refreshToken", rt)]
      store_tokens st ⟨.POST, url, [], some data, []⟩ (_handle_response resp)
    else
      ⟨[], st, .error (.exception "No refresh token available")⟩

/-- `AccountingApiClient.get_customers`: GET `/customers` with the given
query parameters and the `_get_headers` extra headers. -/
def get_customers (st : ClientState) (params : List (String × Json))
    (resp : Response) : CallResult :=
  let url := st.base_url ++ "/customers"
  let headers := _get_headers st
  ⟨[⟨.GET, url, headers, none, params⟩], st, _handle_response resp⟩

/-- `AccountingApiClient.create_customer`: POST the customer data to
`/customers` with the `_get_headers` extra headers. -/
def create_customer (st : ClientState) (customer_data : Json)
    (resp : Response) : CallResult :=
  let url := st.base_url ++ "/customers"
  let headers := _get_headers st
  ⟨[⟨.POST, url, headers, some customer_data, []⟩], st, _handle_response resp⟩

/-- `AccountingApiClient.get_customer`: GET `/customers/{id}` with the
`_get_headers` extra headers. -/
def get_customer (st : ClientState) (customer_id : String)
    (resp : Response) : CallResult :=
  let url := st.base_url ++ "/customers/" ++ customer_id
  let headers := _get_headers st
  ⟨[⟨.GET, url, headers, none, []⟩], st, _handle_response resp⟩

/-- `AccountingApiClient.create_invoice`: POST the invoice data to
`/invoices` with the `_get_headers` extra headers. -/
def create_invoice (st : ClientState) (invoice_data : Json)
    (resp : Response) : CallResult :=
  let url := st.base_url ++ "/invoices"
  let headers := _get_headers st
  ⟨[⟨.POST, url, headers, some invoice_data, []⟩], st, _handle_response resp⟩

/-- `AccountingApiClient.get_invoices`: GET `/invoices` with the given
query parameters and the `_get_headers` extra headers. -/
def get_invoices (st : ClientState) (params : List (String × Json))
    (resp : Response) : CallResult :=
  let url := st.base_url ++ "/invoices"
  let headers := _get_headers st
  ⟨[⟨.GET, url, headers, none, params⟩], st, _handle_response resp⟩

/-! Concrete fixtures, following the values in the source file's
`example_usage` driver: a default-constructed client, clients holding a
token pair, and sample HTTP responses. -/

/-- The constructor's default `base_url`. -/
def default_base_url : String := "http://localhost:3000/api/v1"

/-- A freshly constructed client: no tokens held. -/
def initial_client : ClientState := ⟨default_base_url, none, none⟩

/-- A client holding the token pair ("a", "b"), as after a successful
login against `ok_login_response`. -/
def client_ab : ClientState :=
  ⟨default_base_url, some (.str "a"), some (.str "b")⟩

/-- A client whose access token is the empty string (storable by a 2xx
login response with `accessToken` equal to `""`). -/
def empty_token_client : ClientState :=
  ⟨default_base_url, some (.str ""), some (.str "b")⟩

/-- A successful login body carrying the token pair ("a", "b"). -/
def login_body_ab : Json :=
  Json.obj
    [("accessToken", .str "a"), ("refreshToken", .str "b"),
     ("user", Json.obj [("email", .str "admin@example.com")])]

/-- A 200 login response with body `login_body_ab`. -/
def ok_login_response : Response := ⟨200, some login_body_ab⟩

/-- A 401 response with a JSON error body. -/
def unauthorized_response : Response :=
  ⟨401, some (Json.obj [("message", .str "Unauthorized")])⟩

/-- A 500 response with a JSON error body. -/
def server_error_response : Response :=
  ⟨500, some (Json.obj [("message", .str "Internal Server Error")])⟩

/-- A 301 response with a JSON body: not 401 and not 2xx. -/
def moved_response : Response :=
  ⟨301, some (Json.obj [("message", .str "Moved Permanently")])⟩

/-- A 200 list response with the `\x7bdata, meta\x7d` shape. -/
def ok_customers_response : Response :=
  ⟨200, some (Json.obj
    [("data", Json.arr []), ("meta", Json.obj [("total", Json.num 0)])])⟩

/-- A 2xx login body that carries `accessToken` but lacks `refreshToken`. -/
def partial_login_body : Json := Json.obj [("accessToken", .str "a2")]

/-- A 200 response with body `partial_login_body`. -/
def partial_login_response : Response := ⟨200, some partial_login_body⟩

/-! Helper lemmas about the shared response checkpoint and token storage. -/

/-- A 401 response makes `_handle_response` raise the authentication
failure, whatever the body. -/
theorem handle_response_401 (resp : Response) (h : resp.status_code = 401) :
    _handle_response resp
      = .error (.exception "Authentication failed. Please login again.") := by
  simp [_handle_response, h]

/-- A 2xx response with a JSON body makes `_handle_response` return the
decoded body. -/
theorem handle_response_2xx (resp : Response) (body : Json)
    (hlow : 200 ≤ resp.status_code) (hhigh : resp.status_code < 300)
    (hbody : resp.body = some body) :
    _handle_response resp = .ok body := by
  have h401 : ¬ resp.status_code = 401 := by omega
  have hrange : ¬ (400 ≤ resp.status_code ∧ resp.status_code < 600) := by omega
  simp [_handle_response, raise_for_status, response_json, h401, hrange, hbody]
  rfl

/-- A 4xx or 5xx response other than 401 makes `_handle_response` raise
`HTTPError` carrying the status code and body. -/
theorem handle_response_4xx5xx (resp : Response)
    (h401 : resp.status_code ≠ 401)
    (h4 : 400 ≤ resp.status_code) (h6 : resp.status_code < 600) :
    _handle_response resp = .error (.httpError resp.status_code resp.body) := by
  simp [_handle_response, raise_for_status, h401, h4, h6]
  rfl

/-- A below-400 response (1xx, 2xx or 3xx, except 401 which cannot occur
here) with a JSON body makes `_handle_response` return the decoded body:
`raise_for_status` only raises for 4xx/5xx. -/
theorem handle_response_below_400 (resp : Response) (body : Json)
    (h401 : resp.status_code ≠ 401) (hlt : resp.status_code < 400)
    (hbody : resp.body = some body) :
    _handle_response resp = .ok body := by
  have hrange : ¬ (400 ≤ resp.status_code ∧ resp.status_code < 600) := by omega
  simp [_handle_response, raise_for_status, response_json, h401, hrange, hbody]
  rfl

/-- `store_tokens` issues exactly the one request it is given, whatever the
handled response was. -/
theorem store_tokens_requests (st : ClientState) (req : Request)
    (handled : Except PyError Json) :
    (store_tokens st req handled).requests = [req] := by
  unfold store_tokens
  split
  · rfl
  · split
    · rfl
    · split
      · rfl
      · rfl

/-- When the checkpoint raised, `store_tokens` re-raises and leaves the
state untouched. -/
theorem store_tokens_error (st : ClientState) (req : Request) (e : PyError) :
    store_tokens st req (.error e) = ⟨[req], st, .error e⟩ := rfl

/-- When both token keys are present, `store_tokens` stores both values and
returns the full body. -/
theorem store_tokens_ok (st : ClientState) (req : Request)
    (body atok rtok : Json)
    (ha : body.getItem "accessToken" = .ok atok)
    (hb : body.getItem "refreshToken" = .ok rtok) :
    store_tokens st req (.ok body)
      = ⟨[req], ⟨st.base_url, some atok, some rtok⟩, .ok body⟩ := by
  simp [store_tokens, ha, hb]

/-- When `accessToken` is present but `refreshToken` is missing,
`store_tokens` overwrites the access token, then raises the `KeyError`,
leaving the refresh token at its prior value. -/
theorem store_tokens_missing_refresh (st : ClientState) (req : Request)
    (body atok : Json)
    (ha : body.getItem "accessToken" = .ok atok)
    (hb : body.getItem "refreshToken" = .error (.keyError "refreshToken")) :
    store_tokens st req (.ok body)
      = ⟨[req], ⟨st.base_url, some atok, st.refresh_token⟩,
          .error (.keyError "refreshToken")⟩ := by
  simp [store_tokens, ha, hb]

/-- With a truthy stored refresh token, `refresh_access_token` POSTs it to
`/auth/refresh` and hands the checkpoint result to `store_tokens`. -/
theorem refresh_truthy_eq (st : ClientState) (rt : Json) (resp : Response)
    (h : st.refresh_token = some rt) (ht : rt.truthy = true) :
    refresh_access_token st resp
      = store_tokens st
          ⟨.POST, st.base_url ++ "/auth/refresh", [],
            some (Json.obj [("refreshToken", rt)]), []⟩
          (_handle_response resp) := by
  unfold refresh_access_token
  rw [h]
  simp [ht]

/-! Claim theorems. -/

/-- C1: for every 2xx login response whose JSON body contains the keys
`accessToken` and `refreshToken`, `login(email, password, organization_id)`
sends one POST with the credentials as JSON body to
`base_url ++ "/auth/login"`, stores the body's `accessToken` value into
`access_token` and its `refreshToken` value into `refresh_token`, and
returns the full decoded body unchanged. -/
theorem login_stores_tokens_and_returns_body
    (st : ClientState) (email password organization_id : String)
    (resp : Response) (body atok rtok : Json)
    (hlow : 200 ≤ resp.status_code) (hhigh : resp.status_code < 300)
    (hbody : resp.body = some body)
    (ha : body.getItem "accessToken" = .ok atok)
    (hb : body.getItem "refreshToken" = .ok rtok) :
    login st email password organization_id resp
      = ⟨[⟨.POST, st.base_url ++ "/auth/login", [],
            some (Json.obj
              [("email", .str email), ("password", .str password),
               ("organizationId", .str organization_id)]), []⟩],
          ⟨st.base_url, some atok, some rtok⟩, .ok body⟩ := by
  unfold login
  rw [handle_response_2xx resp body hlow hhigh hbody]
  exact store_tokens_ok st _ body atok rtok ha hb

/-- C1 witness: evaluation at a concrete 200 login response carrying the
token pair ("a", "b"). -/
theorem login_stores_tokens_and_returns_body_witness :
    (200 ≤ ok_login_response.status_code
      ∧ ok_login_response.status_code < 300
      ∧ ok_login_response.body = some login_body_ab
      ∧ login_body_ab.getItem "accessToken" = .ok (Json.str "a")
      ∧ login_body_ab.getItem "refreshToken" = .ok (Json.str "b"))
    ∧ login initial_client "admin@example.com" "SecurePassword123!"
        "550e8400-e29b-41d4-a716-446655440000" ok_login_response
      = ⟨[⟨.POST, default_base_url ++ "/auth/login", [],
            some (Json.obj
              [("email", .str "admin@example.com"),
               ("password", .str "SecurePassword123!"),
               ("organizationId",
                .str "550e8400-e29b-41d4-a716-446655440000")]), []⟩],
          ⟨default_base_url, some (Json.str "a"), some (Json.str "b")⟩,
          .ok login_body_ab⟩ :=
  ⟨⟨by decide, by decide, rfl, rfl, rfl⟩,
    login_stores_tokens_and_returns_body initial_client
      "admin@example.com" "SecurePassword123!"
      "550e8400-e29b-41d4-a716-446655440000" ok_login_response
      login_body_ab (Json.str "a") (Json.str "b")
      (by decide) (by decide) rfl rfl rfl⟩

/-- C5: when no refresh token is held, `refresh_access_token` raises
`Exception("No refresh token available")` before issuing any network
request: no HTTP request is sent and the state is unchanged. -/
theorem refresh_without_token_raises_locally (st : ClientState)
    (resp : Response) (h : st.refresh_token = none) :
    refresh_access_token st resp
      = ⟨[], st, .error (.exception "No refresh token available")⟩ := by
  unfold refresh_access_token
  rw [h]

/-- C5 witness: evaluation on a freshly constructed client. -/
theorem refresh_without_token_raises_locally_witness :
    initial_client.refresh_token = none
    ∧ refresh_access_token initial_client server_error_response
      = ⟨[], initial_client,
          .error (.exception "No refresh token available")⟩ :=
  ⟨rfl, refresh_without_token_raises_locally initial_client
    server_error_response rfl⟩

/-- C8: the five data methods never mutate the client state, whatever the
response: `base_url`, `access_token` and `refresh_token` are unchanged
after the call; only `login` and `refresh_access_token` ever assign the
stored tokens. -/
theorem data_methods_preserve_state (st : ClientState)
    (params : List (String × Json)) (customer_data invoice_data : Json)
    (customer_id : String) (resp : Response) :
    (get_customers st params resp).state = st
    ∧ (create_customer st customer_data resp).state = st
    ∧ (get_customer st customer_id resp).state = st
    ∧ (create_invoice st invoice_data resp).state = st
    ∧ (get_invoices st params resp).state = st :=
  ⟨rfl, rfl, rfl, rfl, rfl⟩

/-- C7: `get_customers` issues exactly one GET to
`base_url ++ "/customers"` carrying the given parameter mapping untouched,
and on a 2xx response returns the decoded body unchanged; the mapping
`limit=20, offset=0` renders as the query string `limit=20&offset=0`. -/
theorem get_customers_request_and_result (st : ClientState)
    (params : List (String × Json)) (resp : Response) (body : Json)
    (hlow : 200 ≤ resp.status_code) (hhigh : resp.status_code < 300)
    (hbody : resp.body = some body) :
    get_customers st params resp
      = ⟨[⟨.GET, st.base_url ++ "/customers", _get_headers st, none,
            params⟩], st, .ok body⟩
    ∧ queryString [("limit", Json.num 20), ("offset", Json.num 0)]
        = "limit=20&offset=0" := by
  refine ⟨?_, by decide⟩
  unfold get_customers
  rw [handle_response_2xx resp body hlow hhigh hbody]

/-- C7 witness: evaluation at the mapping `limit=20, offset=0` and a
concrete 200 `\x7bdata, meta\x7d` response. -/
theorem get_customers_request_and_result_witness :
    (200 ≤ ok_customers_response.status_code
      ∧ ok_customers_response.status_code < 300)
    ∧ get_customers client_ab
        [("limit", Json.num 20), ("offset", Json.num 0)]
        ok_customers_response
      = ⟨[⟨.GET, default_base_url ++ "/customers", _get_headers client_ab,
            none, [("limit", Json.num 20), ("offset", Json.num 0)]⟩],
          client_ab,
          .ok (Json.obj
            [("data", Json.arr []),
             ("meta", Json.obj [("total", Json.num 0)])])⟩
    ∧ queryString [("limit", Json.num 20), ("offset", Json.num 0)]
        = "limit=20&offset=0" := by
  have h := get_customers_request_and_result client_ab
    [("limit", Json.num 20), ("offset", Json.num 0)] ok_customers_response
    (Json.obj
      [("data", Json.arr []), ("meta", Json.obj [("total", Json.num 0)])])
    (by decide) (by decide) rfl
  exact ⟨⟨by decide, by decide⟩, h.1, h.2⟩

/-- C2 counterexample: the claim as stated fails when the stored access
token is the empty string (storable by a 2xx login whose `accessToken` is
`""`): `_get_headers` tests Python truthiness, so no `Authorization`
header is attached even though `access_token` holds a token. -/
theorem auth_header_empty_token_counterexample :
    empty_token_client.access_token = some (Json.str "")
    ∧ (get_customers empty_token_client [] ok_customers_response).requests.map
        Request.headers = [[]]
    ∧ ¬ ((get_customers empty_token_client [] ok_customers_response).requests.map
          Request.headers
        = [[("Authorization", "Bearer " ++ pyFormat (Json.str ""))]]) :=
  ⟨rfl, rfl, by decide⟩

/-- C2 (amended): every call to the five data methods issues exactly one
request whose extra headers are `_get_headers`; when `access_token` holds a
truthy value `a` (a non-empty string) that is
`Authorization: Bearer a`, and when `access_token` is absent no
`Authorization` header is attached — the request is still issued either
way (no client-side authentication check). -/
theorem auth_header_iff_truthy_token (st : ClientState)
    (params : List (String × Json)) (customer_data invoice_data : Json)
    (customer_id : String) (resp : Response) :
    ((get_customers st params resp).requests.map Request.headers
        = [_get_headers st]
      ∧ (create_customer st customer_data resp).requests.map Request.headers
        = [_get_headers st]
      ∧ (get_customer st customer_id resp).requests.map Request.headers
        = [_get_headers st]
      ∧ (create_invoice st invoice_data resp).requests.map Request.headers
        = [_get_headers st]
      ∧ (get_invoices st params resp).requests.map Request.headers
        = [_get_headers st])
    ∧ (∀ a : Json, st.access_token = some a → a.truthy = true →
        _get_headers st = [("Authorization", "Bearer " ++ pyFormat a)])
    ∧ (st.access_token = none → _get_headers st = []) := by
  refine ⟨⟨rfl, rfl, rfl, rfl, rfl⟩, ?_, ?_⟩
  · intro a ha ht
    simp [_get_headers, ha, ht]
  · intro h
    simp [_get_headers, h]

/-- C2 witness: a client holding the token "a" sends
`Authorization: Bearer a` on `get_customers`, and a fresh client sends no
`Authorization` header. -/
theorem auth_header_iff_truthy_token_witness :
    (get_customers client_ab [] ok_customers_response).requests.map
        Request.headers = [[("Authorization", "Bearer a")]]
    ∧ (get_customers initial_client [] ok_customers_response).requests.map
        Request.headers = [[]] := by
  have h1 := auth_header_iff_truthy_token client_ab [] Json.null Json.null
    "c1" ok_customers_response
  have h2 := auth_header_iff_truthy_token initial_client [] Json.null
    Json.null "c1" ok_customers_response
  constructor
  · rw [h1.1.1, h1.2.1 (Json.str "a") rfl rfl]
    decide
  · rw [h2.1.1, h2.2.2 rfl]

/-- C6 counterexample: the claim as stated fails at `login` and
`refresh_access_token`: with an access token held, both send requests with
no extra headers at all, and the session default headers contain no
`Authorization` entry, so no `Authorization` header goes out. -/
theorem login_sends_no_auth_header_counterexample :
    client_ab.access_token = some (Json.str "a")
    ∧ (login client_ab "admin@example.com" "SecurePassword123!" "org-1"
        ok_login_response).requests.map Request.headers = [[]]
    ∧ (refresh_access_token client_ab ok_login_response).requests.map
        Request.headers = [[]]
    ∧ ("Authorization", "Bearer a") ∉ session_default_headers :=
  ⟨rfl, rfl, rfl, by decide⟩

/-- C6 (amended): whenever a truthy access token `a` is held, each of the
five data methods attaches `Authorization: Bearer a` to its one request;
`login` and `refresh_access_token` never attach any extra header (so never
an `Authorization` header), whatever the state. -/
theorem only_data_methods_attach_auth_header (st : ClientState)
    (email password organization_id : String) (resp : Response) (a : Json)
    (ha : st.access_token = some a) (htr : a.truthy = true) :
    (login st email password organization_id resp).requests.map
        Request.headers = [[]]
    ∧ ((refresh_access_token st resp).requests.map Request.headers = []
        ∨ (refresh_access_token st resp).requests.map Request.headers = [[]])
    ∧ (∀ params : List (String × Json),
        (get_customers st params resp).requests.map Request.headers
          = [[("Authorization", "Bearer " ++ pyFormat a)]])
    ∧ (∀ customer_data : Json,
        (create_customer st customer_data resp).requests.map Request.headers
          = [[("Authorization", "Bearer " ++ pyFormat a)]])
    ∧ (∀ customer_id : String,
        (get_customer st customer_id resp).requests.map Request.headers
          = [[("Authorization", "Bearer " ++ pyFormat a)]])
    ∧ (∀ invoice_data : Json,
        (create_invoice st invoice_data resp).requests.map Request.headers
          = [[("Authorization", "Bearer " ++ pyFormat a)]])
    ∧ (∀ params : List (String × Json),
        (get_invoices st params resp).requests.map Request.headers
          = [[("Authorization", "Bearer " ++ pyFormat a)]]) := by
  have hh : _get_headers st = [("Authorization", "Bearer " ++ pyFormat a)] := by
    simp [_get_headers, ha, htr]
  refine ⟨?_, ?_, ?_, ?_, ?_, ?_, ?_⟩
  · unfold login
    rw [store_tokens_requests]
    rfl
  · cases hrt : st.refresh_token with
    | none =>
      left
      rw [refresh_without_token_raises_locally st resp hrt]
      rfl
    | some rt =>
      cases htr2 : rt.truthy with
      | false =>
        left
        unfold refresh_access_token
        rw [hrt]
        simp [htr2]
      | true =>
        right
        rw [refresh_truthy_eq st rt resp hrt htr2, store_tokens_requests]
        rfl
  · intro params
    simp [get_customers, hh]
  · intro customer_data
    simp [create_customer, hh]
  · intro customer_id
    simp [get_customer, hh]
  · intro invoice_data
    simp [create_invoice, hh]
  · intro params
    simp [get_invoices, hh]

/-- C6 witness: evaluation at a client holding the token pair ("a", "b"). -/
theorem only_data_methods_attach_auth_header_witness :
    (client_ab.access_token = some (Json.str "a")
      ∧ (Json.str "a").truthy = true)
    ∧ (login client_ab "admin@example.com" "SecurePassword123!" "org-1"
        ok_login_response).requests.map Request.headers = [[]]
    ∧ (get_invoices client_ab [] ok_customers_response).requests.map
        Request.headers = [[("Authorization", "Bearer a")]] := by
  have h := only_data_methods_attach_auth_header client_ab
    "admin@example.com" "SecurePassword123!" "org-1" ok_login_response
    (Json.str "a") rfl rfl
  exact ⟨⟨rfl, rfl⟩, h.1,
    (only_data_methods_attach_auth_header client_ab "admin@example.com"
      "SecurePassword123!" "org-1" ok_customers_response (Json.str "a")
      rfl rfl).2.2.2.2.2.2 []⟩

/-- C3: every operation of the client, on any response with status code
401 reaching it, raises
`Exception("Authentication failed. Please login again.")`, regardless of
the response body and of the client state; for `refresh_access_token` the
conjunct is conditional on a truthy stored refresh token, since otherwise
the call raises locally and no response ever reaches the checkpoint. -/
theorem status_401_raises_auth_failure (st : ClientState)
    (email password organization_id customer_id : String)
    (params : List (String × Json)) (customer_data invoice_data : Json)
    (resp : Response) (h401 : resp.status_code = 401) :
    (login st email password organization_id resp).outcome
        = .error (.exception "Authentication failed. Please login again.")
    ∧ (∀ rt : Json, st.refresh_token = some rt → rt.truthy = true →
        (refresh_access_token st resp).outcome
          = .error (.exception "Authentication failed. Please login again."))
    ∧ (get_customers st params resp).outcome
        = .error (.exception "Authentication failed. Please login again.")
    ∧ (create_customer st customer_data resp).outcome
        = .error (.exception "Authentication failed. Please login again.")
    ∧ (get_customer st customer_id resp).outcome
        = .error (.exception "Authentication failed. Please login again.")
    ∧ (create_invoice st invoice_data resp).outcome
        = .error (.exception "Authentication failed. Please login again.")
    ∧ (get_invoices st params resp).outcome
        = .error (.exception "Authentication failed. Please login again.") := by
  have h := handle_response_401 resp h401
  refine ⟨?_, ?_, ?_, ?_, ?_, ?_, ?_⟩
  · unfold login
    rw [h, store_tokens_error]
  · intro rt hsome htr
    rw [refresh_truthy_eq st rt resp hsome htr, h, store_tokens_error]
  · simp [get_customers, h]
  · simp [create_customer, h]
  · simp [get_customer, h]
  · simp [create_invoice, h]
  · simp [get_invoices, h]

/-- C3 witness: evaluation at a concrete 401 response with a JSON error
body: a failed first `login` and a tokenless `get_customers` on the
freshly constructed client, and a `refresh_access_token` on a client
holding the token pair ("a", "b"). -/
theorem status_401_raises_auth_failure_witness :
    unauthorized_response.status_code = 401
    ∧ (login initial_client "admin@example.com" "SecurePassword123!"
          "550e8400-e29b-41d4-a716-446655440000" unauthorized_response).outcome
        = .error (.exception "Authentication failed. Please login again.")
    ∧ (get_customers initial_client [] unauthorized_response).outcome
        = .error (.exception "Authentication failed. Please login again.")
    ∧ (refresh_access_token client_ab unauthorized_response).outcome
        = .error (.exception "Authentication failed. Please login again.") := by
  have h1 := status_401_raises_auth_failure initial_client
    "admin@example.com" "SecurePassword123!"
    "550e8400-e29b-41d4-a716-446655440000" "c1" [] Json.null Json.null
    unauthorized_response rfl
  have h2 := status_401_raises_auth_failure client_ab "admin@example.com"
    "SecurePassword123!" "550e8400-e29b-41d4-a716-446655440000" "c1" []
    Json.null Json.null unauthorized_response rfl
  exact ⟨rfl, h1.1, h1.2.2.1, h2.2.1 (Json.str "b") rfl rfl⟩

/-- C4 counterexample: the claim as stated fails at a 301 response (not
401 and not 2xx): no `HttpError` is raised — `raise_for_status` covers
only 4xx/5xx — and the decoded JSON body is returned as on success. -/
theorem status_301_returns_body_counterexample :
    moved_response.status_code = 301
    ∧ (get_customers client_ab [] moved_response).outcome
        = .ok (Json.obj [("message", Json.str "Moved Permanently")]) :=
  ⟨rfl, rfl⟩

/-- C4 (amended): for every operation of the client and every client
state, a response whose status code lies in 400..599 and is not 401 makes
the operation raise `HTTPError` carrying the status code and body, never
returning a decoded value; a response whose status code is below 400 and
not 401 (1xx, 2xx, 3xx) is never raised from, since `raise_for_status`
covers only 4xx/5xx: the shared checkpoint parses and returns its JSON
body, and the five data methods return that body unchanged.  The
`refresh_access_token` conjunct is conditional on a truthy stored refresh
token, since otherwise the call raises locally and no response ever
reaches the checkpoint. -/
theorem http_error_on_4xx_5xx (st : ClientState)
    (email password organization_id customer_id : String)
    (params : List (String × Json)) (customer_data invoice_data : Json)
    (resp : Response) :
    (resp.status_code ≠ 401 → 400 ≤ resp.status_code →
      resp.status_code < 600 →
      (login st email password organization_id resp).outcome
          = .error (.httpError resp.status_code resp.body)
      ∧ (∀ rt : Json, st.refresh_token = some rt → rt.truthy = true →
          (refresh_access_token st resp).outcome
            = .error (.httpError resp.status_code resp.body))
      ∧ (get_customers st params resp).outcome
          = .error (.httpError resp.status_code resp.body)
      ∧ (create_customer st customer_data resp).outcome
          = .error (.httpError resp.status_code resp.body)
      ∧ (get_customer st customer_id resp).outcome
          = .error (.httpError resp.status_code resp.body)
      ∧ (create_invoice st invoice_data resp).outcome
          = .error (.httpError resp.status_code resp.body)
      ∧ (get_invoices st params resp).outcome
          = .error (.httpError resp.status_code resp.body))
    ∧ (∀ body : Json, resp.status_code ≠ 401 → resp.status_code < 400 →
        resp.body = some body →
        _handle_response resp = .ok body
        ∧ (get_customers st params resp).outcome = .ok body
        ∧ (create_customer st customer_data resp).outcome = .ok body
        ∧ (get_customer st customer_id resp).outcome = .ok body
        ∧ (create_invoice st invoice_data resp).outcome = .ok body
        ∧ (get_invoices st params resp).outcome = .ok body) := by
  constructor
  · intro h401 h4 h6
    have h := handle_response_4xx5xx resp h401 h4 h6
    refine ⟨?_, ?_, ?_, ?_, ?_, ?_, ?_⟩
    · unfold login
      rw [h, store_tokens_error]
    · intro rt hsome htr
      rw [refresh_truthy_eq st rt resp hsome htr, h, store_tokens_error]
    · simp [get_customers, h]
    · simp [create_customer, h]
    · simp [get_customer, h]
    · simp [create_invoice, h]
    · simp [get_invoices, h]
  · intro body h401 hlt hbody
    have h := handle_response_below_400 resp body h401 hlt hbody
    exact ⟨h, by simp [get_customers, h], by simp [create_customer, h],
      by simp [get_customer, h], by simp [create_invoice, h],
      by simp [get_invoices, h]⟩

/-- C4 witness: a concrete 500 response raises `HTTPError` with status and
body from a failed first `login` and a tokenless `get_customers` on the
fresh client, and from `refresh_access_token` on a client holding
("a", "b"); a concrete 301 response is not raised from — its decoded body
is returned. -/
theorem http_error_on_4xx_5xx_witness :
    (server_error_response.status_code ≠ 401
      ∧ 400 ≤ server_error_response.status_code
      ∧ server_error_response.status_code < 600)
    ∧ (login initial_client "admin@example.com" "SecurePassword123!"
          "550e8400-e29b-41d4-a716-446655440000" server_error_response).outcome
        = .error (.httpError 500
            (some (Json.obj [("message", .str "Internal Server Error")])))
    ∧ (get_customers initial_client [] server_error_response).outcome
        = .error (.httpError 500
            (some (Json.obj [("message", .str "Internal Server Error")])))
    ∧ (refresh_access_token client_ab server_error_response).outcome
        = .error (.httpError 500
            (some (Json.obj [("message", .str "Internal Server Error")])))
    ∧ (moved_response.status_code ≠ 401 ∧ moved_response.status_code < 400)
    ∧ (get_customers initial_client [] moved_response).outcome
        = .ok (Json.obj [("message", Json.str "Moved Permanently")]) := by
  have h1 := http_error_on_4xx_5xx initial_client "admin@example.com"
    "SecurePassword123!" "550e8400-e29b-41d4-a716-446655440000" "c1" []
    Json.null Json.null server_error_response
  have h2 := http_error_on_4xx_5xx client_ab "admin@example.com"
    "SecurePassword123!" "550e8400-e29b-41d4-a716-446655440000" "c1" []
    Json.null Json.null server_error_response
  have h3 := http_error_on_4xx_5xx initial_client "admin@example.com"
    "SecurePassword123!" "550e8400-e29b-41d4-a716-446655440000" "c1" []
    Json.null Json.null moved_response
  refine ⟨⟨by decide, by decide, by decide⟩, ?_, ?_, ?_,
    ⟨by decide, by decide⟩, ?_⟩
  · exact (h1.1 (by decide) (by decide) (by decide)).1
  · exact (h1.1 (by decide) (by decide) (by decide)).2.2.1
  · exact (h2.1 (by decide) (by decide) (by decide)).2.1 (Json.str "b")
      rfl rfl
  · exact (h3.2 (Json.obj [("message", Json.str "Moved Permanently")])
      (by decide) (by decide) rfl).2.1

/-- C9: when the shared checkpoint raises (401 or any other raised HTTP
error), `login` and `refresh_access_token` re-raise before any token
assignment: the stored tokens — the whole state — are exactly what they
were before the call. -/
theorem failed_auth_call_preserves_tokens (st : ClientState)
    (email password organization_id : String) (resp : Response)
    (err : PyError) (herr : _handle_response resp = .error err) :
    (login st email password organization_id resp).state = st
    ∧ (login st email password organization_id resp).outcome = .error err
    ∧ (∀ rt : Json, st.refresh_token = some rt → rt.truthy = true →
        (refresh_access_token st resp).state = st
        ∧ (refresh_access_token st resp).outcome = .error err) := by
  refine ⟨?_, ?_, ?_⟩
  · unfold login
    rw [herr, store_tokens_error]
  · unfold login
    rw [herr, store_tokens_error]
  · intro rt hsome htr
    rw [refresh_truthy_eq st rt resp hsome htr, herr, store_tokens_error]
    exact ⟨rfl, rfl⟩

/-- C9 witness: evaluation at a concrete 401 response, on a client holding
the token pair ("a", "b"): both tokens survive the failed call. -/
theorem failed_auth_call_preserves_tokens_witness :
    _handle_response unauthorized_response
      = .error (.exception "Authentication failed. Please login again.")
    ∧ (login client_ab "admin@example.com" "SecurePassword123!" "org-1"
        unauthorized_response).state = client_ab
    ∧ (refresh_access_token client_ab unauthorized_response).state
        = client_ab := by
  have h := failed_auth_call_preserves_tokens client_ab "admin@example.com"
    "SecurePassword123!" "org-1" unauthorized_response
    (.exception "Authentication failed. Please login again.") rfl
  exact ⟨rfl, h.1, (h.2.2 (Json.str "b") rfl rfl).1⟩

/-- C10: a 2xx login or refresh response whose body has `accessToken` but
lacks `refreshToken` raises `KeyError("refreshToken")` after the access
token has already been overwritten: the refresh token keeps its prior
value, so the client is left holding a mixed pair. -/
theorem missing_refresh_key_partial_update (st : ClientState)
    (email password organization_id : String) (resp : Response)
    (body atok : Json)
    (hlow : 200 ≤ resp.status_code) (hhigh : resp.status_code < 300)
    (hbody : resp.body = some body)
    (ha : body.getItem "accessToken" = .ok atok)
    (hb : body.getItem "refreshToken" = .error (.keyError "refreshToken")) :
    (login st email password organization_id resp).state
        = ⟨st.base_url, some atok, st.refresh_token⟩
    ∧ (login st email password organization_id resp).outcome
        = .error (.keyError "refreshToken")
    ∧ (∀ rt : Json, st.refresh_token = some rt → rt.truthy = true →
        (refresh_access_token st resp).state
            = ⟨st.base_url, some atok, st.refresh_token⟩
        ∧ (refresh_access_token st resp).outcome
            = .error (.keyError "refreshToken")) := by
  have hok := handle_response_2xx resp body hlow hhigh hbody
  refine ⟨?_, ?_, ?_⟩
  · unfold login
    rw [hok, store_tokens_missing_refresh st _ body atok ha hb]
  · unfold login
    rw [hok, store_tokens_missing_refresh st _ body atok ha hb]
  · intro rt hsome htr
    rw [refresh_truthy_eq st rt resp hsome htr, hok,
      store_tokens_missing_refresh st _ body atok ha hb]
    exact ⟨rfl, rfl⟩

/-- C10 witness: a 200 login response with body
`\x7b"accessToken": "a2"\x7d` on a client holding ("a", "b") leaves the
client with the mixed pair ("a2", "b") and raises the `KeyError`. -/
theorem missing_refresh_key_partial_update_witness :
    (partial_login_body.getItem "accessToken" = .ok (Json.str "a2")
      ∧ partial_login_body.getItem "refreshToken"
          = .error (.keyError "refreshToken"))
    ∧ (login client_ab "admin@example.com" "SecurePassword123!" "org-1"
          partial_login_response).state
        = ⟨default_base_url, some (Json.str "a2"), some (Json.str "b")⟩
    ∧ (login client_ab "admin@example.com" "SecurePassword123!" "org-1"
          partial_login_response).outcome
        = .error (.keyError "refreshToken") := by
  have h := missing_refresh_key_partial_update client_ab "admin@example.com"
    "SecurePassword123!" "org-1" partial_login_response partial_login_body
    (Json.str "a2") (by decide) (by decide) rfl rfl rfl
  exact ⟨⟨rfl, rfl⟩, h.1, h.2.1⟩
